import Mathlib

/-!
# Verification of the rusty-pcap binary codec layer

A shallow embedding of the rusty-pcap crate's pcap / pcap-ng codec into
Lean 4, together with theorems settling the frozen specification claims.

Conventions of the embedding:
* Bytes are `Nat` values; where a concrete byte stream is built, all entries
  are below 256.  Machine integers (`u16`, `u32`, `u64`) are `Nat` with the
  width enforced by how values are assembled from bytes (or by explicit `%`
  at the few places Rust truncates).
* An input stream (`std::io::Read`) is a `List Nat` consumed from the front.
  `read_exact` succeeds iff enough bytes remain and fails with
  `UnexpectedEof` otherwise, matching its contract; on failure the stream
  position is unspecified in Rust, and the embedding leaves it unchanged.
* Fallible Rust functions return an explicit outcome type.  A Rust panic
  (slice indexing out of range, or integer-overflow checks as compiled in
  the crate's test profile, i.e. debug builds) is a distinct `panicked`
  outcome, never a typed error value.
-/

namespace RustyPcap

deriving instance DecidableEq for Except

/-- An input byte stream, consumed from the front. -/
abbrev Stream := List Nat

/-- `Endianness` from `byte_order.rs`: the two-valued byte-order tag. -/
inductive Endianness where
  | littleEndian
  | bigEndian
deriving DecidableEq

/-- `u16::from_be_bytes` on two bytes. -/
def u16FromBytesBE (b0 b1 : Nat) : Nat := b0 * 256 + b1

/-- `u16::from_le_bytes` on two bytes. -/
def u16FromBytesLE (b0 b1 : Nat) : Nat := b1 * 256 + b0

/-- `u16::to_be_bytes`. -/
def u16ToBytesBE (v : Nat) : List Nat := [v / 256 % 256, v % 256]

/-- `u16::to_le_bytes`. -/
def u16ToBytesLE (v : Nat) : List Nat := [v % 256, v / 256 % 256]

/-- `u32::from_be_bytes` on four bytes. -/
def u32FromBytesBE (b0 b1 b2 b3 : Nat) : Nat :=
  ((b0 * 256 + b1) * 256 + b2) * 256 + b3

/-- `u32::from_le_bytes` on four bytes. -/
def u32FromBytesLE (b0 b1 b2 b3 : Nat) : Nat :=
  ((b3 * 256 + b2) * 256 + b1) * 256 + b0

/-- `u32::to_le_bytes`. -/
def u32ToBytesLE (v : Nat) : List Nat :=
  [v % 256, v / 256 % 256, v / 65536 % 256, v / 16777216 % 256]

/-- `u32::to_be_bytes`. -/
def u32ToBytesBE (v : Nat) : List Nat :=
  [v / 16777216 % 256, v / 65536 % 256, v / 256 % 256, v % 256]

/-- `u64::from_be_bytes` on a list of eight bytes. -/
def u64FromBytesBE (bs : List Nat) : Nat :=
  bs.foldl (fun acc b => acc * 256 + b) 0

/-- `u64::from_le_bytes` on a list of eight bytes. -/
def u64FromBytesLE (bs : List Nat) : Nat :=
  bs.foldr (fun b acc => acc * 256 + b) 0

/-- `ByteOrder::u16_from_bytes` dispatched on `Endianness`
(`impl ByteOrder for Endianness` in `byte_order.rs`). -/
def Endianness.u16_from_bytes : Endianness → Nat → Nat → Nat
  | .bigEndian, b0, b1 => u16FromBytesBE b0 b1
  | .littleEndian, b0, b1 => u16FromBytesLE b0 b1

/-- `ByteOrder::u16_to_bytes` dispatched on `Endianness`.
`BigEndian::u16_to_bytes` is `value.to_be_bytes()`,
`LittleEndian::u16_to_bytes` is `value.to_le_bytes()`. -/
def Endianness.u16_to_bytes : Endianness → Nat → List Nat
  | .bigEndian, v => u16ToBytesBE v
  | .littleEndian, v => u16ToBytesLE v

/-- `ByteOrder::u32_from_bytes` dispatched on `Endianness`. -/
def Endianness.u32_from_bytes : Endianness → Nat → Nat → Nat → Nat → Nat
  | .bigEndian, b0, b1, b2, b3 => u32FromBytesBE b0 b1 b2 b3
  | .littleEndian, b0, b1, b2, b3 => u32FromBytesLE b0 b1 b2 b3

/-- `ByteOrder::u32_to_bytes` dispatched on `Endianness`.

The source's `impl ByteOrder for BigEndian` has
`fn u32_to_bytes(self, value: u32) -> [u8; 4] { value.to_le_bytes() }`
(`byte_order.rs` line 33): the big-endian encoder returns the
*little-endian* byte order.  The embedding reproduces that faithfully. -/
def Endianness.u32_to_bytes : Endianness → Nat → List Nat
  | .bigEndian, v => u32ToBytesLE v
  | .littleEndian, v => u32ToBytesLE v

/-- `ByteOrder::u64_from_bytes` dispatched on `Endianness`, taking the
eight bytes as a list. -/
def Endianness.u64_from_bytes : Endianness → List Nat → Nat
  | .bigEndian, bs => u64FromBytesBE bs
  | .littleEndian, bs => u64FromBytesLE bs

/-- Interpret four bytes held in a list (index 0..3) as a `u32` under the
given byte order; used where the source calls `u32_from_bytes` on a
`[u8; 4]` obtained from a slice. -/
def u32FromList (e : Endianness) (bs : List Nat) : Nat :=
  e.u32_from_bytes (bs.getD 0 0) (bs.getD 1 0) (bs.getD 2 0) (bs.getD 3 0)

/-- Interpret two bytes held in a list as a `u16` under the given byte order. -/
def u16FromList (e : Endianness) (bs : List Nat) : Nat :=
  e.u16_from_bytes (bs.getD 0 0) (bs.getD 1 0)

/-- `Version` from `lib.rs`: `{ major: u16, minor: u16 }`. -/
structure Version where
  major : Nat
  minor : Nat
deriving DecidableEq

/-- `Version::parse` (`lib.rs`): major from bytes 0..2, minor from 2..4. -/
def Version.parse (bs : List Nat) (e : Endianness) : Version :=
  { major := e.u16_from_bytes (bs.getD 0 0) (bs.getD 1 0)
    minor := e.u16_from_bytes (bs.getD 2 0) (bs.getD 3 0) }

/-- `Version::write` (`lib.rs`): major then minor, each as a `u16` in the
given byte order. -/
def Version.write (v : Version) (e : Endianness) : List Nat :=
  e.u16_to_bytes v.major ++ e.u16_to_bytes v.minor

/-- Modelled from the spec: the comparison `version < &Version::PCAP_VERSION_2_3`
used by `packet_header.rs` relies on an ordering of `Version` whose
declaration is not among the given sources.  Per the spec's
"versions before 2.3 ... 2.3 and later" it is the lexicographic order on
(major, minor), which is also what a derived `PartialOrd` on the struct
would produce. -/
def Version.ltV (a b : Version) : Bool :=
  a.major < b.major || (a.major == b.major && a.minor < b.minor)

/-- Modelled from the spec: the constant `Version::PCAP_VERSION_2_3`, the
version at which the pcap packet-header length fields swap meaning. -/
def Version.pcapVersion2_3 : Version := { major := 2, minor := 3 }

/-- Modelled from the spec: the constant `Version::PCAP_VERSION_2_4`
(the default pcap version written by the crate). -/
def Version.pcapVersion2_4 : Version := { major := 2, minor := 4 }

/-- The numeric link-type codes accepted by the `link_type!` macro
invocation in `link_type.rs` (`TryFrom<u16>` / `TryFrom<u32>` succeed
exactly on these values). -/
def linkTypeCodes : List Nat :=
  [0, 1, 3, 6, 7, 8, 9, 10,
   50, 51, 104, 166, 204, 205, 206,
   100, 101, 107, 182,
   105, 119, 127, 163, 187, 195, 201, 215, 230, 251, 254, 255, 256, 283,
   108, 113, 117, 129, 144, 177, 189, 220, 226, 227, 239, 253, 258, 266, 271, 276,
   139, 140, 141, 142, 169, 170, 171,
   209, 250, 257, 261, 262, 263, 287,
   114, 122, 123, 138, 143, 165, 196, 197, 202, 203, 207, 224, 225, 228, 229,
   231, 235, 236, 237, 240, 241, 242, 243, 244, 245, 247, 248, 249, 192,
   259, 260, 264, 265, 268, 270, 272, 273, 274, 275, 278, 279, 280, 281, 282,
   284, 285, 286, 288, 289]

/-- `MagicNumber` from `pcap/file_header.rs`: the timestamp resolution. -/
inductive MagicNumber where
  | microsecond
  | nanosecond
deriving DecidableEq

/-- `MagicNumberAndEndianness` from `pcap/file_header.rs`. -/
structure MagicNumberAndEndianness where
  magicNumber : MagicNumber
  endianness : Endianness
deriving DecidableEq

/-- `PcapParseError` from `pcap/mod.rs` (carried data reduced to what the
claims inspect), with a distinguished `panicked` outcome that models a Rust
panic rather than a typed error value. -/
inductive PcapParseError where
  /-- An `std::io::Error` propagated verbatim (in a pure byte stream the
  only possible kind is `UnexpectedEof`). -/
  | io
  | invalidMagicNumber (bytes : Option (List Nat))
  | invalidLinkType (value : Nat)
  | invalidPacketLength (snapLength inclLen : Nat)
deriving DecidableEq

/-- `TryFrom<[u8; 4]> for MagicNumberAndEndianness`: the four valid pcap
magic patterns. -/
def magicTryFromBytes (bs : List Nat) : Except PcapParseError MagicNumberAndEndianness :=
  if bs = [0xa1, 0xb2, 0xc3, 0xd4] then
    .ok { magicNumber := .microsecond, endianness := .bigEndian }
  else if bs = [0xd4, 0xc3, 0xb2, 0xa1] then
    .ok { magicNumber := .microsecond, endianness := .littleEndian }
  else if bs = [0xA1, 0xB2, 0x3C, 0x4D] then
    .ok { magicNumber := .nanosecond, endianness := .bigEndian }
  else if bs = [0x4d, 0x3c, 0xb2, 0xa1] then
    .ok { magicNumber := .nanosecond, endianness := .littleEndian }
  else .error (.invalidMagicNumber (some bs))

/-- `From<MagicNumberAndEndianness> for [u8; 4]` (`pcap/file_header.rs`
lines 55..64).  Note the source maps
`(Nanosecond, LittleEndian)` to `[0xA1, 0xB2, 0x3C, 0x4D]` and
`(Nanosecond, BigEndian)` to `[0x4d, 0x3c, 0xb2, 0xa1]` — the reverse of
what `TryFrom<[u8; 4]>` accepts for those patterns.  The embedding
reproduces that faithfully. -/
def magicToBytes (m : MagicNumberAndEndianness) : List Nat :=
  match m.magicNumber, m.endianness with
  | .microsecond, .littleEndian => [0xd4, 0xc3, 0xb2, 0xa1]
  | .microsecond, .bigEndian => [0xa1, 0xb2, 0xc3, 0xd4]
  | .nanosecond, .littleEndian => [0xA1, 0xB2, 0x3C, 0x4D]
  | .nanosecond, .bigEndian => [0x4d, 0x3c, 0xb2, 0xa1]

/-- `PcapFileHeader` from `pcap/file_header.rs`.  The link type is kept as
its numeric code (the Rust enum's discriminant). -/
structure PcapFileHeader where
  magicNumberAndEndianness : MagicNumberAndEndianness
  version : Version
  timezone : Nat
  sigFigs : Nat
  snapLength : Nat
  linkType : Nat
deriving DecidableEq

/-- `TryFrom<&[u8; 24]> for PcapFileHeader`: parse the 24-byte file header.
`try_u32_from_bytes` never fails here because every slice is exactly four
bytes long. -/
def pcapFileHeaderParse (bs : List Nat) : Except PcapParseError PcapFileHeader := do
  let magic ← magicTryFromBytes (bs.take 4)
  let e := magic.endianness
  let version := Version.parse ((bs.drop 4).take 4) e
  let timezone := u32FromList e ((bs.drop 8).take 4)
  let sigFigs := u32FromList e ((bs.drop 12).take 4)
  let snapLength := u32FromList e ((bs.drop 16).take 4)
  let linkValue := u32FromList e ((bs.drop 20).take 4)
  if linkValue ∈ linkTypeCodes then
    .ok { magicNumberAndEndianness := magic, version := version,
          timezone := timezone, sigFigs := sigFigs,
          snapLength := snapLength, linkType := linkValue }
  else
    -- `LinkType::try_from(u32)` reports the value truncated `as u16`
    .error (.invalidLinkType (linkValue % 65536))

/-- `From<&PcapFileHeader> for [u8; 24]` (`pcap/file_header.rs` lines
155..169): magic bytes, version, then timezone, sig figs, snap length and
`(link_type as u16).into()` each written with `write_u32` in the header's
endianness. -/
def pcapFileHeaderToBytes (h : PcapFileHeader) : List Nat :=
  let e := h.magicNumberAndEndianness.endianness
  magicToBytes h.magicNumberAndEndianness
    ++ h.version.write e
    ++ e.u32_to_bytes h.timezone
    ++ e.u32_to_bytes h.sigFigs
    ++ e.u32_to_bytes h.snapLength
    ++ e.u32_to_bytes (h.linkType % 65536)

/-- `PacketHeader` from `pcap/packet_header.rs` with its
`PacketTimestamp` flattened into the two `u32` fields. -/
structure PacketHeader where
  seconds : Nat
  usec : Nat
  includeLen : Nat
  origLen : Nat
deriving DecidableEq

/-- `PacketHeader::parse_bytes` on a 16-byte header: timestamp seconds and
sub-seconds, then the two length fields, whose order depends on whether the
version is before 2.3 (`(original_length, included_length)`) or not
(`(included_length, original_length)`).  The Rust function returns
`Result` but cannot fail on a 16-byte array, so the embedding is total. -/
def packetHeaderParseBytes (bs : List Nat) (e : Endianness) (v : Version) : PacketHeader :=
  let ts := u32FromList e (bs.take 4)
  let tsUsec := u32FromList e ((bs.drop 4).take 4)
  let field3 := u32FromList e ((bs.drop 8).take 4)
  let field4 := u32FromList e ((bs.drop 12).take 4)
  if v.ltV Version.pcapVersion2_3 then
    { seconds := ts, usec := tsUsec, includeLen := field4, origLen := field3 }
  else
    { seconds := ts, usec := tsUsec, includeLen := field3, origLen := field4 }

/-- `PacketHeader::write`: timestamp, then the two length fields with the
same version-dependent order as `parse_bytes`. -/
def packetHeaderWrite (h : PacketHeader) (e : Endianness) (v : Version) : List Nat :=
  e.u32_to_bytes h.seconds ++ e.u32_to_bytes h.usec ++
    (if v.ltV Version.pcapVersion2_3 then
      e.u32_to_bytes h.origLen ++ e.u32_to_bytes h.includeLen
    else
      e.u32_to_bytes h.includeLen ++ e.u32_to_bytes h.origLen)

/-- `SyncPcapReader::next_packet` (`pcap/sync/mod.rs` lines 52..79),
with the reader's stream made explicit and its snap-length-sized buffer
left implicit (the returned slice is exactly the bytes read into it).

The 16-byte header read uses `read_exact`, whose `UnexpectedEof` failure —
raised both when zero bytes remain *and* when the stream ends mid-header —
is mapped to `Ok(None)`.  A non-EOF I/O error cannot arise on a pure byte
stream.  Returns the result together with the remaining stream; after a
failed `read_exact` the Rust stream position is unspecified and the
embedding leaves it unchanged. -/
def nextPacket (fh : PcapFileHeader) (s : Stream) :
    Except PcapParseError (Option (PacketHeader × List Nat)) × Stream :=
  if 16 ≤ s.length then
    let hdr := packetHeaderParseBytes (s.take 16)
      fh.magicNumberAndEndianness.endianness fh.version
    let rest := s.drop 16
    if fh.snapLength < hdr.includeLen then
      (.error (.invalidPacketLength fh.snapLength hdr.includeLen), rest)
    else if hdr.includeLen ≤ rest.length then
      (.ok (some (hdr, rest.take hdr.includeLen)), rest.drop hdr.includeLen)
    else
      (.error .io, rest)
  else
    (.ok none, s)

/-- `SeeklessPcapWriter` writing one packet after the file header
(`pcap/sync/writer/seekless.rs`): the 24-byte header encoding, then the
packet header in the file's endianness and version, then the content
bytes.  The oversized-packet guard is elided because the round-trip claim
only concerns `content.length ≤ snap_length`. -/
def writePcapFile (fh : PcapFileHeader) (ph : PacketHeader) (content : List Nat) : List Nat :=
  pcapFileHeaderToBytes fh
    ++ packetHeaderWrite ph fh.magicNumberAndEndianness.endianness fh.version
    ++ content

/-- `pad_length_to_32_bytes` (`pcap_ng/mod.rs`): round a length up to the
next multiple of 4. -/
def padLengthTo32Bytes (length : Nat) : Nat :=
  if length % 4 = 0 then length else length + (4 - length % 4)

/-- `StandardOptions::is_custom` lifted to the raw option code: the four
custom option codes of `options.rs`. -/
def isCustomCode (code : Nat) : Bool :=
  code = 2988 || code = 2989 || code = 19372 || code = 19373

/-- The option codes `StandardOptions::try_from` recognizes. -/
def isStandardCode (code : Nat) : Bool :=
  code = 0 || code = 1 || isCustomCode code

/-- `BlockOption` from `pcap_ng/options.rs`. -/
structure BlockOption where
  code : Nat
  length : Nat
  pen : Option Nat
  value : List Nat
deriving DecidableEq

/-- `OptionParseError` / `PcapNgParseError` from `pcap_ng/mod.rs`, its
carried data reduced to what the claims inspect.  `panicked` is not one of
the source's error variants: it marks that the Rust code panics (slice
index out of range, or an integer-overflow check in the crate's test
profile, i.e. debug builds) instead of returning at all. -/
inductive PcapNgError where
  /-- An `std::io::Error` (on a pure byte stream: `UnexpectedEof`). -/
  | io
  | unexpectedBlockId (got : List Nat)
  | invalidEndianness (got : List Nat)
  | invalidLinkType (value : Nat)
  | undeterminedByteOrder
deriving DecidableEq

/-- Outcome of running an embedded fallible Rust function: a value, a
typed error, or a panic. -/
inductive ROutcome (α : Type) where
  | ok : α → ROutcome α
  | error : PcapNgError → ROutcome α
  | panicked : ROutcome α
deriving DecidableEq

/-- `BlockOptions::read_option_header` (`pcap_ng/options.rs` lines
154..170): read a `(code, length)` pair; `(0, 0)` terminates the list
(`none`); a code in the custom range is followed by a 4-byte PEN; any
other code — standard or unknown — carries no PEN. -/
def readOptionHeader (e : Endianness) (s : Stream) :
    ROutcome (Option (Nat × Nat × Option Nat) × Stream) :=
  match s with
  | b0 :: b1 :: b2 :: b3 :: rest =>
    let code := e.u16_from_bytes b0 b1
    let len := e.u16_from_bytes b2 b3
    if code = 0 ∧ len = 0 then
      .ok (none, rest)
    else if isCustomCode code then
      match rest with
      | c0 :: c1 :: c2 :: c3 :: rest2 =>
        .ok (some (code, len, some (e.u32_from_bytes c0 c1 c2 c3)), rest2)
      | _ => .error .io
    else
      .ok (some (code, len, none), rest)
  | _ => .error .io

/-- `BlockOptions::read_in` (`pcap_ng/options.rs` lines 172..197) with
`read_option_header` inlined (the match structure mirrors it exactly so
the recursion is visibly decreasing): loop reading option headers until
the `(0, 0)` terminator, each time reading the value padded to a 4-byte
boundary and truncating it back to the declared length. -/
def readOptionsIn (e : Endianness) : Stream → ROutcome (List BlockOption × Stream)
  | b0 :: b1 :: b2 :: b3 :: rest =>
    let code := e.u16_from_bytes b0 b1
    let len := e.u16_from_bytes b2 b3
    if code = 0 ∧ len = 0 then
      .ok ([], rest)
    else if isCustomCode code then
      match rest with
      | c0 :: c1 :: c2 :: c3 :: rest2 =>
        let pen := e.u32_from_bytes c0 c1 c2 c3
        let padded := padLengthTo32Bytes len
        if padded ≤ rest2.length then
          match readOptionsIn e (rest2.drop padded) with
          | .ok (opts, rest3) =>
            .ok ({ code := code, length := len, pen := some pen,
                   value := (rest2.take padded).take len } :: opts, rest3)
          | .error err => .error err
          | .panicked => .panicked
        else .error .io
      | _ => .error .io
    else
      let padded := padLengthTo32Bytes len
      if padded ≤ rest.length then
        match readOptionsIn e (rest.drop padded) with
        | .ok (opts, rest3) =>
          .ok ({ code := code, length := len, pen := none,
                 value := (rest.take padded).take len } :: opts, rest3)
        | .error err => .error err
        | .panicked => .panicked
      else .error .io
  | _ => .error .io
termination_by s => s.length
decreasing_by
  all_goals simp [List.length_drop]; omega

/-- `BlockOptions::read`: read an option list from the stream. -/
def readOptions (e : Endianness) (s : Stream) : ROutcome (List BlockOption × Stream) :=
  readOptionsIn e s

/-- `BlockOptions::read_option`: like `read`, but an empty list becomes
`none`. -/
def readOption (e : Endianness) (s : Stream) :
    ROutcome (Option (List BlockOption) × Stream) :=
  match readOptionsIn e s with
  | .ok (opts, rest) => .ok ((if opts = [] then none else some opts), rest)
  | .error err => .error err
  | .panicked => .panicked

/-- One option as emitted by `BlockOptions::write`: code, declared length,
the PEN when present, the value bytes, then zero padding computed by
`BlockOption::padding_length` from the declared length field. -/
def writeOneOption (e : Endianness) (o : BlockOption) : List Nat :=
  e.u16_to_bytes o.code ++ e.u16_to_bytes o.length
    ++ (match o.pen with
        | some p => e.u32_to_bytes p
        | none => [])
    ++ o.value
    ++ List.replicate (padLengthTo32Bytes o.length - o.length) 0

/-- `BlockOptions::write` (`pcap_ng/options.rs` lines 219..242): every
option in order, then the `(0, 0)` end-of-options pair. -/
def writeOptions (e : Endianness) (os : List BlockOption) : List Nat :=
  (os.map (writeOneOption e)).flatten ++ e.u16_to_bytes 0 ++ e.u16_to_bytes 0

/-- The validity invariant `BlockOption::new` establishes: a PEN is
present exactly for custom option codes, the declared length is the value
length, and all fields fit their wire widths. -/
def ValidOption (o : BlockOption) : Prop :=
  o.code < 65536 ∧ o.value.length < 65536 ∧ o.length = o.value.length ∧
    (∀ b ∈ o.value, b < 256) ∧
    (match o.pen with
     | some p => isCustomCode o.code = true ∧ p < 4294967296
     | none => isCustomCode o.code = false)

/-- Rust `usize` subtraction as compiled in the crate's test profile
(debug builds): `none` models the overflow panic on underflow. -/
def checkedSub (a b : Nat) : Option Nat :=
  if b ≤ a then some (a - b) else none

/-- `PCAP_NG_MAGIC` from `pcap_ng/mod.rs`. -/
def pcapNgMagic : List Nat := [0x0A, 0x0D, 0x0D, 0x0A]

/-- `Endianness::from_pcap_ng_bytes` (`pcap_ng/mod.rs`): the section
byte-order marker. -/
def fromPcapNgBytes (bs : List Nat) : Except PcapNgError Endianness :=
  if bs = [0x1A, 0x2B, 0x3C, 0x4D] then .ok .bigEndian
  else if bs = [0x4D, 0x3C, 0x2B, 0x1A] then .ok .littleEndian
  else .error (.invalidEndianness bs)

/-- `BlockHeader` from `pcap_ng/blocks.rs`: the raw 4-byte id and 4-byte
total length, read without committing to a byte order. -/
structure BlockHeader where
  blockId : List Nat
  blockLength : List Nat
deriving DecidableEq

/-- `BlockHeader::block_length_as_u32`. -/
def BlockHeader.blockLengthAsU32 (h : BlockHeader) (e : Endianness) : Nat :=
  u32FromList e h.blockLength

/-- `BlockHeader::block_id_as_u32`. -/
def BlockHeader.blockIdAsU32 (h : BlockHeader) (e : Endianness) : Nat :=
  u32FromList e h.blockId

/-- `SectionHeaderBlock` from `pcap_ng/blocks/header.rs`. -/
structure SectionHeaderBlock where
  blockLength : Nat
  byteOrder : Endianness
  version : Version
  sectionLength : Option Nat
  options : Option (List BlockOption)
deriving DecidableEq

/-- `SectionHeaderBlock::read_with_header` (`pcap_ng/blocks/header.rs`
lines 43..83).  The id check accepts exactly `PCAP_NG_MAGIC` (the id is
byte-order symmetric); the byte order is then taken from the 4-byte
order-detection pattern at the start of the body, ignoring any supplied
order.  `options_space` is `block_length as usize - 24`, an unchecked
`usize` subtraction. -/
def readSectionHeader (hdr : BlockHeader) (s : Stream) :
    ROutcome (SectionHeaderBlock × Stream) :=
  if hdr.blockId = pcapNgMagic then
    if 16 ≤ s.length then
      let hd := s.take 16
      match fromPcapNgBytes (hd.take 4) with
      | .error err => .error err
      | .ok bo =>
        let blockLength := hdr.blockLengthAsU32 bo
        let version := Version.parse (hd.drop 4) bo
        let sectionLengthBytes := hd.drop 8
        let sectionLength :=
          if sectionLengthBytes = List.replicate 8 0xFF then none
          else some (bo.u64_from_bytes sectionLengthBytes)
        let s1 := s.drop 16
        match checkedSub blockLength 24 with
        | none => .panicked
        | some optionsSpace =>
          let afterOptions : ROutcome (Option (List BlockOption) × Stream) :=
            if 0 < optionsSpace then readOption bo s1 else .ok (none, s1)
          match afterOptions with
          | .error err => .error err
          | .panicked => .panicked
          | .ok (options, s2) =>
            if 4 ≤ s2.length then
              .ok ({ blockLength := blockLength, byteOrder := bo,
                     version := version, sectionLength := sectionLength,
                     options := options }, s2.drop 4)
            else .error .io
    else .error .io
  else .error (.unexpectedBlockId hdr.blockId)

/-- `InterfaceDescriptionBlock` from `pcap_ng/blocks/interface.rs`, the
link type kept as its numeric code. -/
structure InterfaceDescriptionBlock where
  blockLength : Nat
  linkType : Nat
  reserved : List Nat
  snapLength : Nat
  options : Option (List BlockOption)
deriving DecidableEq

/-- `InterfaceDescriptionBlock::read_with_header`
(`pcap_ng/blocks/interface.rs` lines 60..95), with the byte order always
supplied by the dispatcher: 8 body bytes give the link type (`u16`,
validated by `LinkType::try_from`), two reserved bytes and the snap
length; `options_space` is `block_length - 20`, unchecked. -/
def readInterfaceDescription (hdr : BlockHeader) (bo : Endianness) (s : Stream) :
    ROutcome (InterfaceDescriptionBlock × Stream) :=
  if hdr.blockId = [1, 0, 0, 0] ∨ hdr.blockId = [0, 0, 0, 1] then
    if 8 ≤ s.length then
      let body := s.take 8
      let linkValue := u16FromList bo body
      if linkValue ∈ linkTypeCodes then
        let reserved := (body.drop 2).take 2
        let snapLength := u32FromList bo (body.drop 4)
        let blockLength := hdr.blockLengthAsU32 bo
        let s1 := s.drop 8
        match checkedSub blockLength 20 with
        | none => .panicked
        | some optionsSpace =>
          let afterOptions : ROutcome (Option (List BlockOption) × Stream) :=
            if 0 < optionsSpace then readOption bo s1 else .ok (none, s1)
          match afterOptions with
          | .error err => .error err
          | .panicked => .panicked
          | .ok (options, s2) =>
            if 4 ≤ s2.length then
              .ok ({ blockLength := blockLength, linkType := linkValue,
                     reserved := reserved, snapLength := snapLength,
                     options := options }, s2.drop 4)
            else .error .io
      else .error (.invalidLinkType linkValue)
    else .error .io
  else .error (.unexpectedBlockId hdr.blockId)

/-- `SimplePacket` from `pcap_ng/blocks/simple_packet.rs`; `content` is
the slice the reader returns into the packet buffer. -/
structure SimplePacket where
  blockLength : Nat
  originalLength : Nat
  content : List Nat
deriving DecidableEq

/-- `SimplePacket::read_with_header_no_block_check`
(`pcap_ng/blocks/simple_packet.rs` lines 41..67): read the original
length, grow the caller's buffer to the padded original length if it is
smaller, `read_exact` that many bytes into its front, read the 4-byte
footer, and return `&buffer[..block_length as usize]` — which panics when
the declared block total length exceeds the buffer's length. -/
def readSimplePacket (hdr : BlockHeader) (bo : Endianness) (buffer : List Nat)
    (s : Stream) : ROutcome (SimplePacket × Stream) :=
  if 4 ≤ s.length then
    let originalLength := u32FromList bo (s.take 4)
    let blockLength := hdr.blockLengthAsU32 bo
    let padded := padLengthTo32Bytes originalLength
    let buffer1 :=
      if buffer.length < padded then
        buffer ++ List.replicate (padded - buffer.length) 0
      else buffer
    let s1 := s.drop 4
    if padded ≤ s1.length then
      let buffer2 := s1.take padded ++ buffer1.drop padded
      let s2 := s1.drop padded
      if 4 ≤ s2.length then
        if blockLength ≤ buffer2.length then
          .ok ({ blockLength := blockLength, originalLength := originalLength,
                 content := buffer2.take blockLength }, s2.drop 4)
        else .panicked
      else .error .io
    else .error .io
  else .error .io

/-- `EnhancedPacket` from `pcap_ng/blocks/enhanced_packet.rs`. -/
structure EnhancedPacket where
  blockLength : Nat
  interfaceId : Nat
  timestampHigh : Nat
  timestampLow : Nat
  capturedLength : Nat
  originalLength : Nat
  content : List Nat
  options : Option (List BlockOption)
deriving DecidableEq

/-- `EnhancedPacket::read_with_header_no_block_check`
(`pcap_ng/blocks/enhanced_packet.rs` lines 91..135): 20 bytes of fixed
fields, content padded to the captured length's 4-byte boundary read into
the (grown) buffer, then
`options_space = block_length - minimum_size() - padded_length`, two
unchecked `usize` subtractions, options when positive, and the 4-byte
footer.  The returned content slice `&buffer[..captured_length]` is
always in bounds because the buffer was grown to at least the padded
captured length. -/
def readEnhancedPacket (hdr : BlockHeader) (bo : Endianness) (buffer : List Nat)
    (s : Stream) : ROutcome (EnhancedPacket × Stream) :=
  if 20 ≤ s.length then
    let fields := s.take 20
    let interfaceId := u32FromList bo fields
    let timestampHigh := u32FromList bo (fields.drop 4)
    let timestampLow := u32FromList bo (fields.drop 8)
    let capturedLength := u32FromList bo (fields.drop 12)
    let originalLength := u32FromList bo (fields.drop 16)
    let blockLength := hdr.blockLengthAsU32 bo
    let padded := padLengthTo32Bytes capturedLength
    let buffer1 :=
      if buffer.length < padded then
        buffer ++ List.replicate (padded - buffer.length) 0
      else buffer
    let s1 := s.drop 20
    if padded ≤ s1.length then
      let buffer2 := s1.take padded ++ buffer1.drop padded
      let s2 := s1.drop padded
      match checkedSub blockLength 32 with
      | none => .panicked
      | some partial1 =>
        match checkedSub partial1 padded with
        | none => .panicked
        | some optionsSpace =>
          let afterOptions : ROutcome (Option (List BlockOption) × Stream) :=
            if 0 < optionsSpace then readOption bo s2 else .ok (none, s2)
          match afterOptions with
          | .error err => .error err
          | .panicked => .panicked
          | .ok (options, s3) =>
            if 4 ≤ s3.length then
              .ok ({ blockLength := blockLength, interfaceId := interfaceId,
                     timestampHigh := timestampHigh, timestampLow := timestampLow,
                     capturedLength := capturedLength,
                     originalLength := originalLength,
                     content := buffer2.take capturedLength,
                     options := options }, s3.drop 4)
            else .error .io
    else .error .io
  else .error .io

/-- `Record` from `pcap_ng/blocks/name_resolution.rs`. -/
structure Record where
  recordType : Nat
  recordLength : Nat
  recordData : List Nat
deriving DecidableEq

/-- `Records::read_from_reader` (`pcap_ng/blocks/name_resolution.rs` lines
21..52): loop reading 4-byte record headers.  A *failed* header read
(`reader.read_exact(&mut header).is_err()`) silently breaks the loop — it
is not surfaced; on a pure byte stream that happens exactly when fewer
than 4 bytes remain.  A zero record length (after counting the header's 4
bytes) also ends the loop.  A failure while reading a record's padded data
propagates as an error.  Returns the records with the total number of
bytes consumed. -/
def readRecordsLoop (e : Endianness) : Stream → ROutcome ((List Record × Nat) × Stream)
  | h0 :: h1 :: h2 :: h3 :: rest =>
    let recordType := e.u16_from_bytes h0 h1
    let recordLength := e.u16_from_bytes h2 h3
    if recordLength = 0 then
      .ok (([], 4), rest)
    else
      let padded := padLengthTo32Bytes recordLength
      if padded ≤ rest.length then
        match readRecordsLoop e (rest.drop padded) with
        | .ok ((records, total), rest2) =>
          .ok (({ recordType := recordType, recordLength := recordLength,
                  recordData := (rest.take padded).take recordLength } :: records,
                4 + padded + total), rest2)
        | .error err => .error err
        | .panicked => .panicked
      else .error .io
  | s => .ok (([], 0), s)
termination_by s => s.length
decreasing_by
  simp [List.length_drop]; omega

/-- `NameResolutionBlock` from `pcap_ng/blocks/name_resolution.rs`. -/
structure NameResolutionBlock where
  blockLength : Nat
  records : List Record
  options : Option (List BlockOption)
deriving DecidableEq

/-- `NameResolutionBlock::read_with_header`
(`pcap_ng/blocks/name_resolution.rs` lines 69..95), with the byte order
always supplied by the dispatcher; `options_space` is
`block_length - (minimum_size() + bytes_read)`, unchecked. -/
def readNameResolution (hdr : BlockHeader) (bo : Endianness) (s : Stream) :
    ROutcome (NameResolutionBlock × Stream) :=
  if hdr.blockId = [4, 0, 0, 0] ∨ hdr.blockId = [0, 0, 0, 4] then
    let blockLength := hdr.blockLengthAsU32 bo
    match readRecordsLoop bo s with
    | .error err => .error err
    | .panicked => .panicked
    | .ok ((records, bytesRead), s1) =>
      match checkedSub blockLength (12 + bytesRead) with
      | none => .panicked
      | some optionsSpace =>
        let afterOptions : ROutcome (Option (List BlockOption) × Stream) :=
          if 0 < optionsSpace then readOption bo s1 else .ok (none, s1)
        match afterOptions with
        | .error err => .error err
        | .panicked => .panicked
        | .ok (options, s2) =>
          if 4 ≤ s2.length then
            .ok ({ blockLength := blockLength, records := records,
                   options := options }, s2.drop 4)
          else .error .io
  else .error (.unexpectedBlockId hdr.blockId)

/-- `GenericBlock` from `pcap_ng/blocks/generic.rs`. -/
structure GenericBlock where
  blockId : Nat
  blockLength : Nat
  data : Option (List Nat)
deriving DecidableEq

/-- `GenericBlock::read_with_header` (`pcap_ng/blocks/generic.rs`): read
`block_length - 12` raw payload bytes when the length exceeds the 12-byte
framing, then the 4-byte footer. -/
def readGeneric (hdr : BlockHeader) (bo : Endianness) (s : Stream) :
    ROutcome (GenericBlock × Stream) :=
  let blockLength := hdr.blockLengthAsU32 bo
  if 12 < blockLength then
    if blockLength - 12 ≤ s.length then
      let s1 := s.drop (blockLength - 12)
      if 4 ≤ s1.length then
        .ok ({ blockId := hdr.blockIdAsU32 bo, blockLength := blockLength,
               data := some (s.take (blockLength - 12)) }, s1.drop 4)
      else .error .io
    else .error .io
  else
    if 4 ≤ s.length then
      .ok ({ blockId := hdr.blockIdAsU32 bo, blockLength := blockLength,
             data := none }, s.drop 4)
    else .error .io

/-- `PcapNgBlock` from `pcap_ng/blocks.rs`. -/
inductive PcapNgBlock where
  | sectionHeader (b : SectionHeaderBlock)
  | interfaceDescription (b : InterfaceDescriptionBlock)
  | simplePacket (b : SimplePacket)
  | enhancedPacket (b : EnhancedPacket)
  | nameResolution (b : NameResolutionBlock)
  | generic (b : GenericBlock)
deriving DecidableEq

/-- `PcapNgBlock::read` (`pcap_ng/blocks.rs` lines 262..318): dispatch on
the block id decoded with the section's ambient byte order.  Enhanced
Packet (6) and Simple Packet (3) skip the id re-check
(`read_with_header_no_block_check`); the other known kinds go through
`read_with_header`, and everything else falls back to the generic
reader. -/
def pcapNgBlockRead (hdr : BlockHeader) (bo : Endianness) (buffer : List Nat)
    (s : Stream) : ROutcome (PcapNgBlock × Stream) :=
  match hdr.blockIdAsU32 bo with
  | 6 =>
    match readEnhancedPacket hdr bo buffer s with
    | .ok (b, rest) => .ok (.enhancedPacket b, rest)
    | .error err => .error err
    | .panicked => .panicked
  | 3 =>
    match readSimplePacket hdr bo buffer s with
    | .ok (b, rest) => .ok (.simplePacket b, rest)
    | .error err => .error err
    | .panicked => .panicked
  | 168627466 =>
    match readSectionHeader hdr s with
    | .ok (b, rest) => .ok (.sectionHeader b, rest)
    | .error err => .error err
    | .panicked => .panicked
  | 1 =>
    match readInterfaceDescription hdr bo s with
    | .ok (b, rest) => .ok (.interfaceDescription b, rest)
    | .error err => .error err
    | .panicked => .panicked
  | 4 =>
    match readNameResolution hdr bo s with
    | .ok (b, rest) => .ok (.nameResolution b, rest)
    | .error err => .error err
    | .panicked => .panicked
  | _ =>
    match readGeneric hdr bo s with
    | .ok (b, rest) => .ok (.generic b, rest)
    | .error err => .error err
    | .panicked => .panicked

/-- The state of `SyncPcapNgReader` (`pcap_ng/sync/mod.rs`): the stream,
the current section header and the interface table accumulated for the
current section. -/
structure NgReaderState where
  stream : Stream
  currentSection : SectionHeaderBlock
  interfaces : List InterfaceDescriptionBlock
deriving DecidableEq

/-- The state update `SyncPcapNgReader::next_block` performs after a block
is read (`pcap_ng/sync/mod.rs` lines 63..72): an Interface Description
Block is appended to the table, a Section Header Block replaces the
current section and clears the table, anything else leaves both alone. -/
def NgReaderState.update (st : NgReaderState) (rest : Stream) (b : PcapNgBlock) :
    NgReaderState :=
  match b with
  | .interfaceDescription idb =>
    { stream := rest, currentSection := st.currentSection,
      interfaces := st.interfaces ++ [idb] }
  | .sectionHeader shb =>
    { stream := rest, currentSection := shb, interfaces := [] }
  | _ =>
    { stream := rest, currentSection := st.currentSection,
      interfaces := st.interfaces }

/-- `SyncPcapNgReader::next_block` (`pcap_ng/sync/mod.rs` lines 51..74):
`read_exact` of the 8-byte block header, whose `UnexpectedEof` — raised
both at a clean end of stream and mid-header — yields `Ok(None)`; then the
block dispatch under the current section's byte order, and the section /
interface-table update.  The packet buffer handed to the block readers is
fresh per call.  On a failed block read the source reader's stream
position is wherever the block reader stopped; the embedding returns no
state in that case (the section and interface table are unchanged). -/
def nextBlock (st : NgReaderState) : ROutcome (Option PcapNgBlock × NgReaderState) :=
  if 8 ≤ st.stream.length then
    let hdr : BlockHeader :=
      { blockId := st.stream.take 4, blockLength := (st.stream.drop 4).take 4 }
    match pcapNgBlockRead hdr st.currentSection.byteOrder [] (st.stream.drop 8) with
    | .ok (b, rest) => .ok (some b, st.update rest b)
    | .error err => .error err
    | .panicked => .panicked
  else .ok (none, st)

/-- `SyncPcapNgReader::new` (`pcap_ng/sync/mod.rs` lines 28..35): read a
Section Header Block from the stream head (an 8-byte `BlockHeader::read`,
which surfaces EOF as an I/O error, then the section-header body) and
start with an empty interface table. -/
def ngReaderNew (s : Stream) : ROutcome NgReaderState :=
  if 8 ≤ s.length then
    let hdr : BlockHeader :=
      { blockId := s.take 4, blockLength := (s.drop 4).take 4 }
    match readSectionHeader hdr (s.drop 8) with
    | .ok (shb, rest) =>
      .ok { stream := rest, currentSection := shb, interfaces := [] }
    | .error err => .error err
    | .panicked => .panicked
  else .error .io

/-! ## Concrete inputs used by the claim theorems -/

/-- The file header of the source's own `test_header_write` test:
big-endian, microsecond, version 2.6, timezone 1, two significant figures,
snap length 100, Ethernet. -/
def c1Header : PcapFileHeader :=
  { magicNumberAndEndianness := { magicNumber := .microsecond, endianness := .bigEndian }
    version := { major := 2, minor := 6 }
    timezone := 1, sigFigs := 2, snapLength := 100, linkType := 1 }

/-- A Simple Packet block header declaring a block total length (100) far
beyond the bytes its body supplies. -/
def c2SimpleHeader : BlockHeader :=
  { blockId := [3, 0, 0, 0], blockLength := [100, 0, 0, 0] }

/-- Body for `c2SimpleHeader`: original length 4, four content bytes, and
the 4-byte footer. -/
def c2SimpleStream : Stream := [4, 0, 0, 0, 1, 2, 3, 4, 0, 0, 0, 0]

/-- A Section Header block header whose declared total length (12) is
below the type's 24-byte minimum framing size. -/
def c2ShbHeader : BlockHeader :=
  { blockId := pcapNgMagic, blockLength := [12, 0, 0, 0] }

/-- Body for `c2ShbHeader`: a valid little-endian order marker, version
1.0, and an all-ones section length. -/
def c2ShbStream : Stream :=
  [0x4D, 0x3C, 0x2B, 0x1A, 1, 0, 0, 0] ++ List.replicate 8 0xFF

/-- A valid little-endian microsecond pcap file header. -/
def c3FileHeader : PcapFileHeader :=
  { magicNumberAndEndianness := { magicNumber := .microsecond, endianness := .littleEndian }
    version := { major := 2, minor := 4 }
    timezone := 0, sigFigs := 0, snapLength := 65535, linkType := 1 }

/-- A little-endian current section for exercising the pcap-ng reader. -/
def c3Section : SectionHeaderBlock :=
  { blockLength := 32, byteOrder := .littleEndian
    version := { major := 1, minor := 0 }, sectionLength := none, options := none }

/-- A Simple Packet block header declaring block total length 20. -/
def c4Header : BlockHeader :=
  { blockId := [3, 0, 0, 0], blockLength := [20, 0, 0, 0] }

/-- A reused packet buffer of 20 bytes, larger than this block's padded
content, as a caller that already read a bigger packet would hold. -/
def c4Buffer : List Nat := List.replicate 20 9

/-- Body for `c4Header`: original length 4, four content bytes, footer. -/
def c4Stream : Stream := [4, 0, 0, 0, 1, 2, 3, 4, 9, 9, 9, 9]

/-- A custom option (code 2988) carrying Private Enterprise Number 19 and
an empty value — a valid code/PEN combination per `BlockOption::new`. -/
def c5Options : List BlockOption :=
  [{ code := 2988, length := 0, pen := some 19, value := [] }]

/-- A name-resolution record list that ends right where the next 4-byte
record header is due, without a zero-length terminating record: one
record (type 1, length 2, data "ab" padded to 4), then end of stream. -/
def c6Stream : Stream := [1, 0, 2, 0, 97, 98, 0, 0]

/-- A 16-byte little-endian packet header with `included_length` 5 and
`original_length` 5. -/
def c7HeaderBytes : Stream :=
  [0, 0, 0, 0, 0, 0, 0, 0, 5, 0, 0, 0, 5, 0, 0, 0]

/-- A pcap file header like `c3FileHeader` but with snap length 2, smaller
than `c7HeaderBytes`'s included length. -/
def c7SmallSnap : PcapFileHeader :=
  { magicNumberAndEndianness := { magicNumber := .microsecond, endianness := .littleEndian }
    version := { major := 2, minor := 4 }
    timezone := 0, sigFigs := 0, snapLength := 2, linkType := 1 }

/-- A pcap file header like `c7SmallSnap` but with snap length 100, large
enough for `c7HeaderBytes`'s included length. -/
def c7LargeSnap : PcapFileHeader :=
  { magicNumberAndEndianness := { magicNumber := .microsecond, endianness := .littleEndian }
    version := { major := 2, minor := 4 }
    timezone := 0, sigFigs := 0, snapLength := 100, linkType := 1 }

/-- A minimal little-endian Section Header Block: total length 32 = 8-byte
header + 16 fixed body bytes + 4-byte end-of-options pair + 4-byte footer,
all-ones (absent) section length, version 1.0. -/
def c9ShbLEBytes : Stream :=
  pcapNgMagic ++ [32, 0, 0, 0] ++ [0x4D, 0x3C, 0x2B, 0x1A] ++ [1, 0, 0, 0]
    ++ List.replicate 8 0xFF ++ [0, 0, 0, 0] ++ [32, 0, 0, 0]

/-- The same minimal Section Header Block in big-endian encoding. -/
def c9ShbBEBytes : Stream :=
  pcapNgMagic ++ [0, 0, 0, 32] ++ [0x1A, 0x2B, 0x3C, 0x4D] ++ [0, 1, 0, 0]
    ++ List.replicate 8 0xFF ++ [0, 0, 0, 0] ++ [0, 0, 0, 32]

/-- A little-endian Interface Description Block: total length 24 = 8-byte
header + link type Ethernet (1) + two reserved bytes + snap length 0 +
4-byte end-of-options pair + 4-byte footer. -/
def c9IdbBytes : Stream :=
  [1, 0, 0, 0] ++ [24, 0, 0, 0] ++ [1, 0] ++ [0, 0] ++ [0, 0, 0, 0]
    ++ [0, 0, 0, 0] ++ [24, 0, 0, 0]

/-- A stream of two concatenated sections in different byte orders: a
little-endian Section Header Block, one Interface Description Block, then
a big-endian Section Header Block. -/
def c9Stream : Stream := c9ShbLEBytes ++ c9IdbBytes ++ c9ShbBEBytes

/-- The parse of `c9ShbLEBytes`. -/
def c9SectionLE : SectionHeaderBlock :=
  { blockLength := 32, byteOrder := .littleEndian
    version := { major := 1, minor := 0 }, sectionLength := none, options := none }

/-- The parse of `c9ShbBEBytes`. -/
def c9SectionBE : SectionHeaderBlock :=
  { blockLength := 32, byteOrder := .bigEndian
    version := { major := 1, minor := 0 }, sectionLength := none, options := none }

/-- The parse of `c9IdbBytes`. -/
def c9Idb : InterfaceDescriptionBlock :=
  { blockLength := 24, linkType := 1, reserved := [0, 0], snapLength := 0,
    options := none }

/-- Reader state after `ngReaderNew` consumed the little-endian section
header of `c9Stream`. -/
def c9State0 : NgReaderState :=
  { stream := c9IdbBytes ++ c9ShbBEBytes, currentSection := c9SectionLE,
    interfaces := [] }

/-- Reader state after the Interface Description Block was returned. -/
def c9State1 : NgReaderState :=
  { stream := c9ShbBEBytes, currentSection := c9SectionLE, interfaces := [c9Idb] }

/-- Reader state after the big-endian Section Header Block was returned:
the interface table is reset and the section replaced. -/
def c9State2 : NgReaderState :=
  { stream := [], currentSection := c9SectionBE, interfaces := [] }

/-! ## Claim theorems -/

/-- C1: the pcap write/parse round trip fails on the code.  For the
big-endian header of the crate's own `test_header_write` test, parsing
the 24-byte encoding back does not return the header (it errors, because
`BigEndian::u32_to_bytes` emits little-endian bytes, so link type 1 reads
back as `0x01000000`, truncated to 0 in the `InvalidLinkType` payload);
and the nanosecond little-endian magic encodes to the byte pattern that
parses as nanosecond *big*-endian.  The claim — `parse(write(H)) = H` for
every valid header, in particular that the 24-byte encoding parses back to
`H` — is therefore violated by the code at this input. -/
theorem c1_file_header_roundtrip_fails_on_code :
    pcapFileHeaderParse (pcapFileHeaderToBytes c1Header) = .error (.invalidLinkType 0) ∧
    magicTryFromBytes (magicToBytes { magicNumber := .nanosecond, endianness := .littleEndian })
      = .ok { magicNumber := .nanosecond, endianness := .bigEndian } := by
  decide

/-- C2: the block readers panic on malformed input instead of returning a
typed failure.  A Simple Packet block whose declared total length (100)
exceeds the bytes actually buffered (4) hits the out-of-range slice
`&buffer[..block_length]` and panics; a Section Header block whose
declared total length (12) is below the 24-byte minimum framing hits the
underflowing `block_length as usize - 24` and panics (debug profile).
The claim — every such input yields a typed failure, never a panic — is
therefore violated by the code. -/
theorem c2_malformed_block_panics :
    readSimplePacket c2SimpleHeader .littleEndian [] c2SimpleStream = .panicked ∧
    readSectionHeader c2ShbHeader c2ShbStream = .panicked := by
  decide

/-- C5: the `BlockOptions` write/read round trip fails on the code for
big-endian byte order with a custom option carrying a PEN.  Code 2988 is a
custom code, so a PEN (19) is written — but `BigEndian::u32_to_bytes` is
`to_le_bytes`, so reading the bytes back big-endian returns PEN
`318767104 = 0x13000000`, not 19.  The claim — `read(write(O)) = O` for
both byte orders including custom codes — is therefore violated by the
code at this input. -/
theorem c5_options_roundtrip_fails_be_pen :
    isCustomCode 2988 = true ∧
    readOptions .bigEndian (writeOptions .bigEndian c5Options)
      = .ok ([{ code := 2988, length := 0, pen := some 318767104, value := [] }], []) ∧
    c5Options ≠ [{ code := 2988, length := 0, pen := some 318767104, value := [] }] := by
  refine ⟨by decide, ?_, by decide⟩
  simp [readOptions, readOptionsIn, writeOptions, writeOneOption, c5Options,
    Endianness.u16_to_bytes, Endianness.u32_to_bytes, Endianness.u16_from_bytes,
    Endianness.u32_from_bytes, u16ToBytesBE, u32ToBytesLE, u16FromBytesBE,
    u32FromBytesBE, isCustomCode, padLengthTo32Bytes]

/-- C8: parsing swaps the two length fields exactly at version 2.3 (shown
by the general theorem `packetHeaderParseBytes_version_swap`), but the
claim's last conjunct — write-then-parse at the same version and
endianness recovers both length fields — fails on the code for big-endian:
`BigEndian::u32_to_bytes` emits little-endian bytes, so the header
(100, 100) written big-endian at version 2.4 parses back with both length
fields equal to `1677721600 = 0x64000000`.  This is the exact scenario the
crate's own `write_test` asserts. -/
theorem c8_be_write_parse_fails_on_code :
    packetHeaderParseBytes
        (packetHeaderWrite { seconds := 100, usec := 200, includeLen := 100, origLen := 100 }
          .bigEndian Version.pcapVersion2_4)
        .bigEndian Version.pcapVersion2_4
      = { seconds := 1677721600, usec := 3355443200,
          includeLen := 1677721600, origLen := 1677721600 } ∧
    (1677721600 : Nat) ≠ 100 := by
  decide

/-- For every 16-byte packet header and endianness, a pre-2.3 parse and a
2.3-or-later parse read the same four bytes into swapped length fields:
`orig_len` at 2.2 is `include_len` at 2.4 and vice versa (the timestamp
fields agree).  This is the parse-side half of claim C8, which holds. -/
theorem packetHeaderParseBytes_version_swap (bs : List Nat) (e : Endianness) :
    (packetHeaderParseBytes bs e { major := 2, minor := 2 }).origLen
        = (packetHeaderParseBytes bs e { major := 2, minor := 4 }).includeLen ∧
      (packetHeaderParseBytes bs e { major := 2, minor := 2 }).includeLen
        = (packetHeaderParseBytes bs e { major := 2, minor := 4 }).origLen := by
  simp [packetHeaderParseBytes, Version.ltV, Version.pcapVersion2_3]

/-- C3, counterexample: the claim says a stream that ends after at least
one header byte but before the full 16-byte packet header (resp. 8-byte
block header) returns an I/O error, never `Ok(None)`.  On the code, both
readers catch `read_exact`'s `UnexpectedEof` — which is raised for partial
reads as well — and return `Ok(None)`: a 1-byte packet-header stream and a
3-byte block-header stream both yield "no more", not an error. -/
theorem c3_partial_header_not_an_error :
    (nextPacket c3FileHeader [7]).1 = .ok none ∧
    nextBlock { stream := [7, 7, 7], currentSection := c3Section, interfaces := [] }
      = .ok (none, { stream := [7, 7, 7], currentSection := c3Section, interfaces := [] }) := by
  decide

/-- C3, amended: end-of-stream *anywhere* during the 16-byte packet header
read (resp. the 8-byte block header read) — at offset zero or mid-header —
returns `Ok(None)`; only non-EOF I/O errors would surface as errors. -/
theorem c3_eof_during_header_returns_none :
    (∀ (fh : PcapFileHeader) (s : Stream), s.length < 16 →
      (nextPacket fh s).1 = .ok none) ∧
    (∀ st : NgReaderState, st.stream.length < 8 →
      nextBlock st = .ok (none, st)) := by
  constructor
  · intro fh s h
    simp [nextPacket, Nat.not_le.mpr h]
  · intro st h
    simp [nextBlock, Nat.not_le.mpr h]

/-- Witness for C3's amended theorem at a 1-byte packet stream and a
1-byte block stream. -/
theorem c3_eof_during_header_returns_none_witness :
    (nextPacket c3FileHeader [1]).1 = .ok none ∧
    nextBlock { stream := [1], currentSection := c3Section, interfaces := [] }
      = .ok (none, { stream := [1], currentSection := c3Section, interfaces := [] }) :=
  ⟨c3_eof_during_header_returns_none.1 c3FileHeader [1] (by decide),
   c3_eof_during_header_returns_none.2
     { stream := [1], currentSection := c3Section, interfaces := [] } (by decide)⟩

/-- C4, counterexample: the claim says a successfully read Simple Packet
block's content length equals the block total length minus the fixed
framing bytes.  On the code the returned slice is `&buffer[..block_length]`:
for a block with total length 20 read into a 20-byte reused buffer, the
read succeeds and the content has length 20, not 20 − 16 = 4. -/
theorem c4_simple_packet_content_counterexample :
    readSimplePacket c4Header .littleEndian c4Buffer c4Stream
      = .ok ({ blockLength := 20, originalLength := 4,
               content := [1, 2, 3, 4, 9, 9, 9, 9, 9, 9, 9, 9, 9, 9, 9, 9, 9, 9, 9, 9] }, []) ∧
    ([1, 2, 3, 4, 9, 9, 9, 9, 9, 9, 9, 9, 9, 9, 9, 9, 9, 9, 9, 9] : List Nat).length ≠ 20 - 16 := by
  decide

/-- C4, amended: for every successfully read Simple Packet block, the
returned content slice's length equals the declared block *total* length
itself (with no framing subtracted) — the reader returns
`&buffer[..block_length]`, so success also requires the packet buffer to
hold at least that many bytes. -/
theorem c4_simple_packet_content_is_block_length (hdr : BlockHeader) (bo : Endianness)
    (buffer : List Nat) (s : Stream) (sp : SimplePacket) (rest : Stream)
    (h : readSimplePacket hdr bo buffer s = .ok (sp, rest)) :
    sp.content.length = hdr.blockLengthAsU32 bo
      ∧ sp.blockLength = hdr.blockLengthAsU32 bo := by
  simp only [readSimplePacket] at h
  repeat' split at h
  any_goals exact ROutcome.noConfusion h
  all_goals
    rename_i hguard
    simp only [ROutcome.ok.injEq, Prod.mk.injEq] at h
    obtain ⟨hsp, -⟩ := h
    subst hsp
    refine ⟨?_, rfl⟩
    simp only [List.length_take, List.length_append, List.length_drop,
      List.length_replicate] at hguard ⊢
    omega

/-- Witness for C4's amended theorem: a Simple Packet block with total
length 4, original length 4 and content `[5, 6, 8, 9]` read from an empty
buffer. -/
theorem c4_simple_packet_content_is_block_length_witness :
    ({ blockLength := 4, originalLength := 4,
       content := [5, 6, 8, 9] } : SimplePacket).content.length
        = BlockHeader.blockLengthAsU32
            { blockId := [3, 0, 0, 0], blockLength := [4, 0, 0, 0] } .littleEndian ∧
    ({ blockLength := 4, originalLength := 4,
       content := [5, 6, 8, 9] } : SimplePacket).blockLength
        = BlockHeader.blockLengthAsU32
            { blockId := [3, 0, 0, 0], blockLength := [4, 0, 0, 0] } .littleEndian :=
  c4_simple_packet_content_is_block_length
    { blockId := [3, 0, 0, 0], blockLength := [4, 0, 0, 0] } .littleEndian []
    [4, 0, 0, 0, 5, 6, 8, 9, 0, 0, 0, 0]
    { blockLength := 4, originalLength := 4, content := [5, 6, 8, 9] } []
    (by decide)

/-- C6, counterexample: the claim says a stream that ends while a 4-byte
record header is due (before any zero-length terminating record) makes the
record-list read fail.  On the code, `Records::read_from_reader` swallows
the failed header read and returns `Ok` with the records gathered so far:
for a stream holding one complete record and nothing more, it returns that
one record (8 bytes consumed) with no error. -/
theorem c6_record_header_eof_silently_truncates :
    readRecordsLoop .littleEndian c6Stream
      = .ok (([{ recordType := 1, recordLength := 2, recordData := [97, 98] }], 8), []) := by
  simp [readRecordsLoop, c6Stream, Endianness.u16_from_bytes, u16FromBytesLE,
    padLengthTo32Bytes]

/-- C6, amended: a failure of the 4-byte record-header read silently ends
the record list — the read returns `Ok` with the records gathered so far
and the stream where it stopped (universally, any stream shorter than four
bytes yields `Ok` with no records); only a failure while reading a
record's *data* bytes is surfaced as an error (shown at a record whose
declared length exceeds the remaining stream). -/
theorem c6_record_list_failure_policy :
    (∀ (bo : Endianness) (s : Stream), s.length < 4 →
      readRecordsLoop bo s = .ok (([], 0), s)) ∧
    readRecordsLoop .littleEndian [1, 0, 8, 0, 1, 2] = .error .io := by
  constructor
  · intro bo s h
    cases s with
    | nil => simp [readRecordsLoop]
    | cons a t => cases t with
      | nil => simp [readRecordsLoop]
      | cons b u => cases u with
        | nil => simp [readRecordsLoop]
        | cons c v => cases v with
          | nil => simp [readRecordsLoop]
          | cons d w => simp [List.length_cons] at h; omega
  · simp [readRecordsLoop, Endianness.u16_from_bytes, u16FromBytesLE,
      padLengthTo32Bytes]

/-- Witness for C6's amended theorem at a 2-byte stream. -/
theorem c6_record_list_failure_policy_witness :
    readRecordsLoop .bigEndian [9, 9] = .ok (([], 0), [9, 9]) :=
  c6_record_list_failure_policy.1 .bigEndian [9, 9] (by decide)

/-- C7: with at least a full 16-byte packet header available, the reader
validates the decoded included length against the file header's snap
length *before* touching the body: if it exceeds the snap length,
`next_packet` fails with `InvalidPacketLength` carrying the snap length
and the offending included length, having consumed exactly the 16 header
bytes; otherwise (when the body is available) it reads exactly
`included_length` body bytes and returns a slice of exactly that
length. -/
theorem c7_snap_length_enforced (fh : PcapFileHeader) (s : Stream) (h16 : 16 ≤ s.length) :
    (fh.snapLength < (packetHeaderParseBytes (s.take 16)
        fh.magicNumberAndEndianness.endianness fh.version).includeLen →
      nextPacket fh s
        = (.error (.invalidPacketLength fh.snapLength
            (packetHeaderParseBytes (s.take 16)
              fh.magicNumberAndEndianness.endianness fh.version).includeLen),
           s.drop 16)) ∧
    ((packetHeaderParseBytes (s.take 16)
        fh.magicNumberAndEndianness.endianness fh.version).includeLen ≤ fh.snapLength →
      (packetHeaderParseBytes (s.take 16)
        fh.magicNumberAndEndianness.endianness fh.version).includeLen ≤ s.length - 16 →
      nextPacket fh s
          = (.ok (some (packetHeaderParseBytes (s.take 16)
                fh.magicNumberAndEndianness.endianness fh.version,
              (s.drop 16).take (packetHeaderParseBytes (s.take 16)
                fh.magicNumberAndEndianness.endianness fh.version).includeLen)),
             (s.drop 16).drop (packetHeaderParseBytes (s.take 16)
                fh.magicNumberAndEndianness.endianness fh.version).includeLen) ∧
        ((s.drop 16).take (packetHeaderParseBytes (s.take 16)
            fh.magicNumberAndEndianness.endianness fh.version).includeLen).length
          = (packetHeaderParseBytes (s.take 16)
              fh.magicNumberAndEndianness.endianness fh.version).includeLen) := by
  constructor
  · intro hgt
    simp only [nextPacket, if_pos h16, if_pos hgt]
  · intro hle hlen
    have hdrop : (packetHeaderParseBytes (s.take 16)
        fh.magicNumberAndEndianness.endianness fh.version).includeLen ≤ (s.drop 16).length := by
      simpa [List.length_drop] using hlen
    constructor
    · simp only [nextPacket, if_pos h16, if_neg (Nat.not_lt.mpr hle), if_pos hdrop]
    · simp only [List.length_take, List.length_drop]
      omega

/-- Witness for C7 in both branches: snap length 2 against included
length 5 fails with `InvalidPacketLength{2, 5}` leaving the body
unconsumed, and snap length 100 reads exactly the 5 content bytes. -/
theorem c7_snap_length_enforced_witness :
    nextPacket c7SmallSnap c7HeaderBytes
      = (.error (.invalidPacketLength 2 5), []) ∧
    nextPacket c7LargeSnap (c7HeaderBytes ++ [1, 2, 3, 4, 5])
      = (.ok (some ({ seconds := 0, usec := 0, includeLen := 5, origLen := 5 },
          [1, 2, 3, 4, 5])), []) :=
  ⟨(c7_snap_length_enforced c7SmallSnap c7HeaderBytes (by decide)).1 (by decide),
   ((c7_snap_length_enforced c7LargeSnap (c7HeaderBytes ++ [1, 2, 3, 4, 5])
      (by decide)).2 (by decide) (by decide)).1⟩

/-- Whenever `next_block` returns a block, the new reader state is the old
one updated by `NgReaderState.update` at the block read, for some
remaining stream. -/
theorem nextBlock_ok_some_update (st : NgReaderState) (b : PcapNgBlock)
    (st' : NgReaderState) (h : nextBlock st = .ok (some b, st')) :
    ∃ rest, st' = st.update rest b := by
  simp only [nextBlock] at h
  split at h
  · split at h
    · rename_i b' rest heq
      simp only [ROutcome.ok.injEq, Prod.mk.injEq, Option.some.injEq] at h
      obtain ⟨hb, hst⟩ := h
      subst hb
      exact ⟨rest, hst.symm⟩
    · exact ROutcome.noConfusion h
    · exact ROutcome.noConfusion h
  · simp at h

/-- C9: the pcap-ng section reader's state machine.  When `next_block`
returns a Section Header Block the interface table is empty and the
current section is the returned block; when it returns an Interface
Description Block that block has been appended to the table; any other
block kind leaves section and table unchanged.  And concretely, a stream
of two concatenated Section Header Blocks with different byte orders (a
little-endian section holding one Interface Description Block, then a
big-endian section) parses both sections, appends the interface, and
resets the table when the big-endian section header arrives. -/
theorem c9_section_reader_state_machine :
    (∀ (st : NgReaderState) (shb : SectionHeaderBlock) (st' : NgReaderState),
      nextBlock st = .ok (some (.sectionHeader shb), st') →
        st'.interfaces = [] ∧ st'.currentSection = shb) ∧
    (∀ (st : NgReaderState) (idb : InterfaceDescriptionBlock) (st' : NgReaderState),
      nextBlock st = .ok (some (.interfaceDescription idb), st') →
        st'.interfaces = st.interfaces ++ [idb]
          ∧ st'.currentSection = st.currentSection) ∧
    (∀ (st : NgReaderState) (b : PcapNgBlock) (st' : NgReaderState),
      nextBlock st = .ok (some b, st') →
      (∀ shb, b ≠ .sectionHeader shb) →
      (∀ idb, b ≠ .interfaceDescription idb) →
        st'.interfaces = st.interfaces ∧ st'.currentSection = st.currentSection) ∧
    ngReaderNew c9Stream = .ok c9State0 ∧
    nextBlock c9State0 = .ok (some (.interfaceDescription c9Idb), c9State1) ∧
    nextBlock c9State1 = .ok (some (.sectionHeader c9SectionBE), c9State2) ∧
    c9State1.interfaces = [c9Idb] ∧
    c9State2.interfaces = [] ∧ c9State2.currentSection = c9SectionBE := by
  refine ⟨?_, ?_, ?_, ?_, ?_, ?_, by decide, by decide, by decide⟩
  · intro st shb st' h
    obtain ⟨rest, hst⟩ := nextBlock_ok_some_update st _ st' h
    subst hst
    exact ⟨rfl, rfl⟩
  · intro st idb st' h
    obtain ⟨rest, hst⟩ := nextBlock_ok_some_update st _ st' h
    subst hst
    exact ⟨rfl, rfl⟩
  · intro st b st' h hnshb hnidb
    obtain ⟨rest, hst⟩ := nextBlock_ok_some_update st _ st' h
    subst hst
    cases b with
    | sectionHeader shb => exact absurd rfl (hnshb shb)
    | interfaceDescription idb => exact absurd rfl (hnidb idb)
    | simplePacket _ => exact ⟨rfl, rfl⟩
    | enhancedPacket _ => exact ⟨rfl, rfl⟩
    | nameResolution _ => exact ⟨rfl, rfl⟩
    | generic _ => exact ⟨rfl, rfl⟩
  · simp [ngReaderNew, c9Stream, c9ShbLEBytes, c9ShbBEBytes, c9IdbBytes, pcapNgMagic,
      readSectionHeader, fromPcapNgBytes, BlockHeader.blockLengthAsU32, u32FromList,
      Endianness.u32_from_bytes, u32FromBytesLE, u32FromBytesBE, Version.parse,
      Endianness.u16_from_bytes, u16FromBytesLE, u16FromBytesBE,
      Endianness.u64_from_bytes, u64FromBytesLE, u64FromBytesBE, checkedSub,
      readOption, readOptionsIn, padLengthTo32Bytes, isCustomCode,
      c9State0, c9SectionLE]
  · simp [nextBlock, c9State0, c9State1, c9SectionLE, c9Idb, c9IdbBytes, c9ShbBEBytes,
      pcapNgMagic, pcapNgBlockRead, BlockHeader.blockIdAsU32,
      BlockHeader.blockLengthAsU32, u32FromList, Endianness.u32_from_bytes,
      u32FromBytesLE, u32FromBytesBE, readInterfaceDescription, u16FromList,
      Endianness.u16_from_bytes, u16FromBytesLE, linkTypeCodes, checkedSub,
      readOption, readOptionsIn, padLengthTo32Bytes, isCustomCode,
      NgReaderState.update]
  · simp [nextBlock, c9State1, c9State2, c9SectionLE, c9SectionBE, c9ShbBEBytes,
      pcapNgMagic, pcapNgBlockRead, BlockHeader.blockIdAsU32,
      BlockHeader.blockLengthAsU32, u32FromList, Endianness.u32_from_bytes,
      u32FromBytesLE, u32FromBytesBE, readSectionHeader, fromPcapNgBytes,
      Version.parse, Endianness.u16_from_bytes, u16FromBytesLE, u16FromBytesBE,
      Endianness.u64_from_bytes, u64FromBytesBE, checkedSub, readOption,
      readOptionsIn, padLengthTo32Bytes, isCustomCode, NgReaderState.update]

/-- Witness for C9: the theorem's Section-Header clause applied at the
concrete big-endian section-header step of its own two-section stream. -/
theorem c9_section_reader_state_machine_witness :
    c9State2.interfaces = [] ∧ c9State2.currentSection = c9SectionBE :=
  c9_section_reader_state_machine.1 c9State1 c9SectionBE c9State2
    c9_section_reader_state_machine.2.2.2.2.2.1

/-- C10: the options parser treats a `(code, length)` pair as the list
terminator exactly when both decoded values are zero; a pair with code 0
but nonzero length is an ordinary option header with no PEN, and — shown
on `BlockOptions::read` — such an option, like one with nonzero code and
length 0 (empty value), is returned as a list element rather than ending
the list. -/
theorem c10_option_terminator_iff_both_zero :
    (∀ (e : Endianness) (b0 b1 b2 b3 : Nat) (rest : Stream),
      readOptionHeader e (b0 :: b1 :: b2 :: b3 :: rest) = .ok (none, rest)
        ↔ (e.u16_from_bytes b0 b1 = 0 ∧ e.u16_from_bytes b2 b3 = 0)) ∧
    (∀ (e : Endianness) (b0 b1 b2 b3 : Nat) (rest : Stream),
      e.u16_from_bytes b0 b1 = 0 → e.u16_from_bytes b2 b3 ≠ 0 →
      readOptionHeader e (b0 :: b1 :: b2 :: b3 :: rest)
        = .ok (some (0, e.u16_from_bytes b2 b3, none), rest)) ∧
    readOptions .littleEndian [0, 0, 2, 0, 10, 20, 0, 0, 0, 0, 0, 0]
      = .ok ([{ code := 0, length := 2, pen := none, value := [10, 20] }], []) ∧
    readOptions .littleEndian [5, 0, 0, 0, 0, 0, 0, 0]
      = .ok ([{ code := 5, length := 0, pen := none, value := [] }], []) := by
  refine ⟨?_, ?_, ?_, ?_⟩
  · intro e b0 b1 b2 b3 rest
    constructor
    · intro h
      by_contra hc
      simp only [readOptionHeader] at h
      rw [if_neg hc] at h
      split at h
      · split at h
        · simp at h
        · exact ROutcome.noConfusion h
      · simp at h
    · intro hz
      simp only [readOptionHeader]
      rw [if_pos hz]
  · intro e b0 b1 b2 b3 rest h0 hne
    simp only [readOptionHeader, h0]
    rw [if_neg (by simp [hne])]
    simp [isCustomCode]
  · simp [readOptions, readOptionsIn, Endianness.u16_from_bytes, u16FromBytesLE,
      isCustomCode, padLengthTo32Bytes]
  · simp [readOptions, readOptionsIn, Endianness.u16_from_bytes, u16FromBytesLE,
      isCustomCode, padLengthTo32Bytes]

/-- Witness for C10: both universal clauses applied at concrete bytes —
an all-zero pair terminates, and a `(0, 1)` pair is an ordinary option
header with no PEN. -/
theorem c10_option_terminator_iff_both_zero_witness :
    readOptionHeader .littleEndian [0, 0, 0, 0, 42] = .ok (none, [42]) ∧
    readOptionHeader .littleEndian [0, 0, 1, 0, 9, 9, 9, 9]
      = .ok (some (0, u16FromBytesLE 1 0, none), [9, 9, 9, 9]) :=
  ⟨(c10_option_terminator_iff_both_zero.1 .littleEndian 0 0 0 0 [42]).mpr (by decide),
   c10_option_terminator_iff_both_zero.2.1 .littleEndian 0 0 1 0 [9, 9, 9, 9]
     (by decide) (by decide)⟩

end RustyPcap
